import Mathlib

/-!
Verification development for the line-profiler core in `src/profiler.py`.

The Python source is shallowly embedded:
* tracer activation / deactivation (`self.enable_by_count` / `self.disable_by_count`,
  entered and exited by the `with self:` blocks of the wrappers) is modelled as an
  event trace of `Ev.enable` / `Ev.disable`;
* a Python callable that may raise is modelled as a function into `Except PyExc _`;
* generator semantics, including PEP 479 (a `StopIteration` escaping a generator
  frame is replaced by `RuntimeError`), are modelled explicitly;
* the renderer's `stream.write` calls are modelled as a list of structured output
  records (`Out`) carrying the semantic content of each written line; fixed-width
  numeric formatting is abstracted away, as the spec itself declares widths a
  presentation detail while column content is the contract;
* Python floats that hold timer units are modelled as exact rationals `Rat`;
  `a / b` on floats raises `ZeroDivisionError` for `b = 0`, which is modelled
  by an explicit zero test before any division.
-/

/-- Python exception kinds relevant for this program. `userExc n` stands for an
arbitrary user-defined exception distinguished by a code. -/
inductive PyExc where
  | StopIteration
  | RuntimeError
  | ZeroDivisionError
  | NameError
  | userExc (n : Nat)
deriving DecidableEq, Repr

/-- Tracer events: `enable` is `LineProfiler.__enter__` (enable_by_count),
`disable` is `LineProfiler.__exit__` (disable_by_count). -/
inductive Ev where
  | enable
  | disable
deriving DecidableEq, Repr

/-- Embedding of the Python statement `with self: body` of the wrappers in
`src/profiler.py`: `__enter__` fires before the body, `__exit__` fires on every
exit path (normal completion and exception), and the body's outcome — value or
exception — is then propagated unchanged. -/
def withSelf {α : Type} (body : Except PyExc α) : List Ev × Except PyExc α :=
  match body with
  | Except.ok v => ([Ev.enable, Ev.disable], Except.ok v)
  | Except.error e => ([Ev.enable, Ev.disable], Except.error e)

/-- `MyLineProfiler.wrap_function` (src/profiler.py lines 63-69): the wrapper
calls the wrapped callable inside one `with self:` bracket and returns its
result or lets its exception propagate. -/
def wrap_function_run (func : Nat → Except PyExc Nat) (args : Nat) :
    List Ev × Except PyExc Nat :=
  withSelf (func args)

/-- `MyLineProfiler.wrap_coroutine` (src/profiler.py lines 42-48): the wrapper
awaits the wrapped coroutine inside one `with self:` bracket; the entire await,
including internal suspension, is one bracket by design. -/
def wrap_coroutine_run (func : Nat → Except PyExc Nat) (args : Nat) :
    List Ev × Except PyExc Nat :=
  withSelf (func args)

/-- The classes appearing in the classmethod model. `classmethodType` is the
builtin `classmethod` type itself, which is what `cm.__class__` evaluates to
for any classmethod object `cm`. `base` and `sub` stand for a user class and
a subclass of it. -/
inductive PyClass where
  | classmethodType
  | base
  | sub
deriving DecidableEq, Repr

/-- A Python `classmethod` object: `underlying` is its `__func__`, the unbound
function, whose first parameter is the class argument. The result records the
class the function actually received together with its numeric result, so that
theorems can observe which class was passed. -/
structure ClassMethodObj where
  underlying : PyClass → Nat → PyClass × Nat

/-- `cm.__class__` for a classmethod object `cm`: the type of a `classmethod`
instance is the builtin `classmethod` type, independent of any class body the
object appears in. -/
def classmethodDunderClass (_cm : ClassMethodObj) : PyClass :=
  PyClass.classmethodType

/-- `MyLineProfiler.wrap_classmethod` (src/profiler.py lines 34-40) invoked
through a class reference `currentClass`. The wrapper is a plain function, so
looking it up on a class does not bind that class; the wrapper receives only
the explicit arguments and calls
`func.__func__(func.__class__, *args)` — i.e. it passes
`classmethodDunderClass cm`, fixed at wrap time, and ignores `currentClass`. -/
def wrap_classmethod_invoke (cm : ClassMethodObj) (_currentClass : PyClass)
    (arg : Nat) : List Ev × (PyClass × Nat) :=
  let r := withSelf (Except.ok (cm.underlying (classmethodDunderClass cm) arg))
  (r.1, cm.underlying (classmethodDunderClass cm) arg)

/-- An unwrapped classmethod invoked through a class reference: Python's
descriptor protocol binds the class the attribute is accessed through as the
implicit first argument of `__func__`. -/
def classmethod_invoke (cm : ClassMethodObj) (currentClass : PyClass)
    (arg : Nat) : PyClass × Nat :=
  cm.underlying currentClass arg

/-- One resumption step of a generator: yield a value, finish normally
(`stop`, i.e. `StopIteration` is signalled to the resuming caller), or raise. -/
inductive GenStep (α : Type) where
  | yieldv (v : α)
  | stop
  | raise (e : PyExc)
deriving DecidableEq, Repr

/-- An inner generator, represented by its resumption behaviour: given the
list of values sent into it so far (the first resumption, `next(g)`, sees the
empty list; the i-th `g.send(x)` sees the previous sends), it yields, stops or
raises. -/
def InnerGen (α β : Type) : Type := List β → GenStep α

/-- PEP 479: a `StopIteration` that escapes a generator function's frame is
replaced by `RuntimeError`; every other exception escapes unchanged. -/
def pep479 : PyExc → PyExc
  | PyExc.StopIteration => PyExc.RuntimeError
  | e => e

/-- Directly consuming the unwrapped generator: the consumer first calls
`next(g)` and then sends the values of `ins` one by one, stopping after the
last send. Returns the values obtained and, when the generator terminated
during this run, the exception the consumer observes: `StopIteration` for
normal exhaustion, or the raised exception. `hist` is the list of values sent
so far (initially `[]`). -/
def runInner {α β : Type} (g : InnerGen α β) (hist : List β) (ins : List β) :
    List α × Option PyExc :=
  match g hist with
  | GenStep.yieldv v =>
    match ins with
    | [] => ([v], none)
    | i :: rest =>
      let r := runInner g (hist ++ [i]) rest
      (v :: r.1, r.2)
  | GenStep.stop => ([], some PyExc.StopIteration)
  | GenStep.raise e => ([], some e)

/-- `MyLineProfiler.wrap_generator` (src/profiler.py lines 50-61), consumed
the same way: each resumption runs `next(g)` / `g.send(input_)` inside one
`with self:` bracket (the bracket closes on every exit path) and yields the
produced value. The wrapper has no `try: ... except StopIteration:` around the
`next`/`send`: when the inner generator terminates, its `StopIteration`
escapes the wrapper's own generator frame, where PEP 479 replaces it with
`RuntimeError`; any other exception escapes the frame unchanged. Returns the
tracer-event trace, the values yielded by the wrapper, and the exception the
wrapper's consumer observes. -/
def runWrapped {α β : Type} (g : InnerGen α β) (hist : List β) (ins : List β) :
    List Ev × List α × Option PyExc :=
  match g hist with
  | GenStep.yieldv v =>
    match ins with
    | [] => ([Ev.enable, Ev.disable], [v], none)
    | i :: rest =>
      let r := runWrapped g (hist ++ [i]) rest
      (Ev.enable :: Ev.disable :: r.1, v :: r.2.1, r.2.2)
  | GenStep.stop => ([Ev.enable, Ev.disable], [], some PyExc.RuntimeError)
  | GenStep.raise e => ([Ev.enable, Ev.disable], [], some (pep479 e))

/-- A trace is bracket-balanced starting from open depth `d`: the depth never
goes below zero and returns to zero at the end, so no bracket is left open and
every activation is matched by a deactivation before control leaves. -/
def bracketBalanced : List Ev → Nat → Bool
  | [], d => d == 0
  | Ev.enable :: rest, d => bracketBalanced rest (d + 1)
  | Ev.disable :: rest, d => d != 0 && bracketBalanced rest (d - 1)

/-- One accumulated line statistic `(lineno, nhits, time)` as stored in the
tracer's timings lists: line number, hit count, elapsed ticks. -/
structure Timing where
  lineno : Nat
  nhits : Nat
  time : Nat
deriving DecidableEq, Repr

/-- The value part of one entry of the dict `d` built by `show_func`
(src/profiler.py lines 112-119): hit count, scaled time, scaled per-hit time,
and the percentage column (`none` models the empty string written when the
target's own total is zero). -/
structure Row where
  nhits : Nat
  time : Rat
  perHit : Rat
  percent : Option Rat
deriving DecidableEq, Repr

/-- One `stream.write` of the renderer, as a structured record of the
semantic content of the written text (numeric formatting widths abstracted):
`missingFile f` is `"Could not find file f"`; `timerUnit u` is
`"Timer unit: u s"`; `totalTime name t` is `"Total time in name: t s"`;
`fileLine f` is `"File: f"`; `funcLine name l` is
`"Function: name at line l"`; `tableHeader` and `separator` are the column
header and the `=`-rule; `row l h t p pc txt` is one table row where `none`
fields model the blank cells of the `empty` tuple; `blankLine` is the final
`"\n"`. -/
inductive Out where
  | missingFile (filename : String)
  | timerUnit (u : Rat)
  | totalTime (func_name : String) (t : Rat)
  | fileLine (filename : String)
  | funcLine (func_name : String) (start_lineno : Nat)
  | tableHeader
  | separator
  | row (lineno : Nat) (nhits : Option Nat) (time : Option Rat)
      (perHit : Option Rat) (percent : Option Rat) (text : String)
  | blankLine
deriving DecidableEq, Repr

/-- The external collaborators used by `show_func`: `path_exists` is
`os.path.exists`, `getlines` is `linecache.getlines` (the lines of the file,
each usually ending in a newline), and `getblock` is `inspect.getblock`
(isolating the contiguous block of one definition from a list of lines
starting at its first line). `linecache.clearcache()` has no observable
effect in this model. -/
structure SourceEnv where
  path_exists : String → Bool
  getlines : String → List String
  getblock : List String → List String

/-- Python's `str.rstrip()`: remove trailing whitespace. -/
def rstrip (s : String) : String :=
  String.mk ((s.toList.reverse.dropWhile Char.isWhitespace).reverse)

/-- `sum(time for _, _, time in timings)`. -/
def sumTimes (timings : List Timing) : Nat :=
  timings.foldr (fun t acc => t.time + acc) 0

/-- `d.get(lineno)` for the dict built in insertion order from an association
list: a later assignment to the same key overwrites an earlier one, so the
lookup returns the value of the last matching entry. -/
def dLookup (entries : List (Nat × Row)) (k : Nat) : Option Row :=
  (entries.reverse.find? (fun p => p.1 == k)).map (fun p => p.2)

/-- The dict-building loop of `show_func` (src/profiler.py lines 112-119):
for each timing, the percentage cell is the empty string when the target's
total is zero and `100 * time / total` otherwise, and the per-hit cell is
`float(time) * scalar / nhits` — computed unconditionally, so a timing with
`nhits = 0` raises `ZeroDivisionError` at that iteration. -/
def build_d (scalar : Rat) (total : Nat) : List Timing → Except PyExc (List (Nat × Row))
  | [] => Except.ok []
  | t :: rest =>
    let percent : Option Rat :=
      if total = 0 then none else some (100 * (t.time : Rat) / (total : Rat))
    if t.nhits = 0 then Except.error PyExc.ZeroDivisionError
    else
      match build_d scalar total rest with
      | Except.error e => Except.error e
      | Except.ok xs =>
        Except.ok ((t.lineno,
          { nhits := t.nhits
            time := (t.time : Rat) * scalar
            perHit := (t.time : Rat) * scalar / (t.nhits : Rat)
            percent := percent }) :: xs)

/-- The row-emitting loop of `show_func` (src/profiler.py lines 125-130): for
each line number in `range(start_lineno, start_lineno + len(sublines))`,
zipped with the block's source lines, emit the dict row if present and the
all-blank `empty` tuple otherwise, with the source text right-stripped. -/
def renderRows (entries : List (Nat × Row)) (start_lineno : Nat)
    (sublines : List String) : List Out :=
  (List.zip (List.range' start_lineno sublines.length) sublines).map (fun p =>
    match dLookup entries p.1 with
    | some r => Out.row p.1 (some r.nhits) (some r.time) (some r.perHit)
        r.percent (rstrip p.2)
    | none => Out.row p.1 none none none none (rstrip p.2))

/-- `MyLineProfiler.show_func` (src/profiler.py lines 89-132). Returns the
list of writes made to the stream, in order, together with the exception (if
any) that escapes. Faithful control flow: (1) missing file → one diagnostic
line and return; (2) `stripzeros and total_time == 0` → return with nothing
written; (3) `if not output_unit: output_unit = unit` treats both `None` and
`0` as falsy; (4) `scalar = unit / output_unit` is float division, raising
`ZeroDivisionError` when the effective output unit is zero; (5) the three
header lines are written before the dict loop, so they have already reached
the stream if that loop raises. -/
def show_func (env : SourceEnv) (filename : String) (start_lineno : Nat)
    (func_name : String) (timings : List Timing) (unit : Rat)
    (output_unit : Option Rat) (stripzeros : Bool) : List Out × Option PyExc :=
  if env.path_exists filename = false then
    ([Out.missingFile filename], none)
  else
    let total_time := sumTimes timings
    if stripzeros && (total_time == 0) then
      ([], none)
    else
      let ou : Rat :=
        match output_unit with
        | none => unit
        | some u => if u = 0 then unit else u
      if ou = 0 then ([], some PyExc.ZeroDivisionError)
      else
        let scalar := unit / ou
        let headerWrites := [Out.totalTime func_name ((total_time : Rat) * scalar),
                             Out.fileLine filename,
                             Out.funcLine func_name start_lineno]
        let all_lines := env.getlines filename
        let sublines := env.getblock (all_lines.drop (start_lineno - 1))
        match build_d scalar total_time timings with
        | Except.error e => (headerWrites, some e)
        | Except.ok entries =>
          (headerWrites ++ [Out.tableHeader, Out.separator] ++
             renderRows entries start_lineno sublines ++ [Out.blankLine], none)

/-- A key of the statistics mapping: `(filename, first line, function name)`. -/
structure TargetKey where
  filename : String
  lineno : Nat
  name : String
deriving DecidableEq, Repr

/-- Lexicographic comparison of target keys, as Python's `sorted` compares
the `(fn, lineno, name)` tuples. -/
def keyLe (a b : TargetKey) : Bool :=
  if a.filename ≠ b.filename then decide (a.filename < b.filename)
  else if a.lineno ≠ b.lineno then decide (a.lineno < b.lineno)
  else decide (a.name ≤ b.name)

/-- Insert into a list sorted by `keyLe` (after all keys it does not
precede), a stable insertion. -/
def insertByKey (x : TargetKey × List Timing) :
    List (TargetKey × List Timing) → List (TargetKey × List Timing)
  | [] => [x]
  | y :: rest =>
    if keyLe x.1 y.1 then x :: y :: rest
    else y :: insertByKey x rest

/-- `sorted(stats.items())`: sort the statistics mapping by key. -/
def sortStats (stats : List (TargetKey × List Timing)) :
    List (TargetKey × List Timing) :=
  stats.foldr insertByKey []

/-- The names bound in the module namespace of `src/profiler.py`: the
imports (lines 1-6) and the module-level `def`/assignment statements. `def
show_func` (line 89) is indented inside the class body of `MyLineProfiler`,
so it binds a class attribute, not a module-level name: `show_func` is absent
from this list. -/
def moduleGlobals : List String :=
  ["functools", "inspect", "linecache", "os", "sys", "LineProfiler",
   "is_coroutine", "is_generator", "is_classmethod", "MyLineProfiler",
   "show_text", "profile", "call_a", "call_b", "testfunc", "main"]

/-- The loop of `show_text` (src/profiler.py lines 146-149) over the sorted
statistics items. The loop body is the call `show_func(...)`; evaluating it
first resolves the name `show_func` in the enclosing module namespace (there
is no local or builtin of that name), raising `NameError` if it is unbound;
only on success is the resolved function applied. An exception escaping an
iteration aborts the loop. -/
def show_text_loop (env : SourceEnv) (unit : Rat) (output_unit : Option Rat)
    (stripzeros : Bool) : List (TargetKey × List Timing) → List Out × Option PyExc
  | [] => ([], none)
  | (k, ts) :: rest =>
    if moduleGlobals.contains "show_func" then
      let r := show_func env k.filename k.lineno k.name ts unit output_unit stripzeros
      match r.2 with
      | some e => (r.1, some e)
      | none =>
        let r2 := show_text_loop env unit output_unit stripzeros rest
        (r.1 ++ r2.1, r2.2)
    else ([], some PyExc.NameError)

/-- `show_text` (src/profiler.py lines 135-149): write the timer-unit header
(the configured `output_unit` when it `is not None`, else the native unit),
then run the per-target loop over the sorted statistics. -/
def show_text (env : SourceEnv) (stats : List (TargetKey × List Timing))
    (unit : Rat) (output_unit : Option Rat) (stripzeros : Bool) :
    List Out × Option PyExc :=
  let hdr := Out.timerUnit (match output_unit with | some u => u | none => unit)
  let r := show_text_loop env unit output_unit stripzeros (sortStats stats)
  (hdr :: r.1, r.2)

/-- Rescaling of one output record by the factor `k`: time values and per-hit
values are multiplied by `k`; hit counts, percentages, source text and all
non-table lines are unchanged. -/
def scaleOut (k : Rat) : Out → Out
  | Out.totalTime n t => Out.totalTime n (k * t)
  | Out.row l h t p pc txt =>
    Out.row l h (t.map (fun x => k * x)) (p.map (fun x => k * x)) pc txt
  | o => o

/-- Row rescaling by `k`: scaled time and per-hit scaled; hits and percent kept. -/
def scaleRow (k : Rat) (r : Row) : Row :=
  { nhits := r.nhits, time := k * r.time, perHit := k * r.perHit, percent := r.percent }

/-- A source environment in which every file exists and has a two-line body. -/
def envAll : SourceEnv :=
  { path_exists := fun _ => true
    getlines := fun _ => ["def f():\n", "    pass\n"]
    getblock := fun ls => ls }

/-- A source environment in which only `there.py` exists. -/
def envThere : SourceEnv :=
  { path_exists := fun s => s == "there.py"
    getlines := fun _ => ["def h():\n", "    pass\n"]
    getblock := fun ls => ls }

/-- A source environment in which no file exists. -/
def envNone : SourceEnv :=
  { path_exists := fun _ => false
    getlines := fun _ => []
    getblock := fun ls => ls }

/-- A classmethod whose underlying function reports the class it received. -/
def cmId : ClassMethodObj := ⟨fun c n => (c, n)⟩

/-- An inner generator that is exhausted from the start (yields nothing). -/
def gEmpty : InnerGen Nat Nat := fun _ => GenStep.stop

theorem runWrapped_values {α β : Type} (g : InnerGen α β) (ins hist : List β) :
    (runWrapped g hist ins).2.1 = (runInner g hist ins).1 := by
  induction ins generalizing hist with
  | nil =>
    unfold runWrapped runInner
    cases g hist <;> rfl
  | cons i rest ih =>
    unfold runWrapped runInner
    cases g hist with
    | yieldv v => simpa using ih (hist ++ [i])
    | stop => rfl
    | raise e => rfl

theorem runWrapped_exc {α β : Type} (g : InnerGen α β) (ins hist : List β) :
    (runWrapped g hist ins).2.2 = ((runInner g hist ins).2).map pep479 := by
  induction ins generalizing hist with
  | nil =>
    unfold runWrapped runInner
    cases g hist <;> rfl
  | cons i rest ih =>
    unfold runWrapped runInner
    cases g hist with
    | yieldv v => simpa using ih (hist ++ [i])
    | stop => rfl
    | raise e => rfl

theorem runWrapped_balanced {α β : Type} (g : InnerGen α β) (ins hist : List β) :
    bracketBalanced (runWrapped g hist ins).1 0 = true := by
  induction ins generalizing hist with
  | nil =>
    unfold runWrapped
    cases g hist <;> rfl
  | cons i rest ih =>
    unfold runWrapped
    cases g hist with
    | yieldv v =>
      simp only []
      have h := ih (hist ++ [i])
      simpa [bracketBalanced] using h
    | stop => rfl
    | raise e => rfl

/-- C1: the claim states that the report invocation surface writes the full
report and, for every non-empty statistics mapping whose source files exist,
completes without raising. On the code this is false: `show_func` is defined
inside the class body while `show_text` resolves the bare name `show_func` at
module scope, so the first loop iteration raises `NameError` — here on a
one-target mapping whose source file exists (`envAll`), only the timer-unit
header is written and `NameError` escapes. -/
theorem C1_report_call_raises_NameError :
    show_text envAll [(⟨"a.py", 1, "f"⟩, [⟨1, 1, 5⟩])] 1 none false
      = ([Out.timerUnit 1], some PyExc.NameError) := by
  decide

/-- C2: the claim states that a `LineStat` with `hit_count = 0` renders with a
blank Per Hit cell and never raises a division error. On the code this is
false: the dict loop of `show_func` computes `float(time) * scalar / nhits`
unconditionally, so the timing `(2, 0, 7)` raises `ZeroDivisionError` after
the three header lines have been written. -/
theorem C2_zero_hits_raises_division_error :
    show_func envAll "a.py" 1 "f" [⟨2, 0, 7⟩] 1 none false
      = ([Out.totalTime "f" 7, Out.fileLine "a.py", Out.funcLine "f" 1],
         some PyExc.ZeroDivisionError) := by
  simp [show_func, envAll, sumTimes, build_d]

/-- C3: the claim states that a wrapped classmethod invoked through a subclass
reference passes that subclass as the implicit first argument. On the code this
is false: the wrapper calls `func.__func__(func.__class__, ...)`, and
`func.__class__` for a classmethod object is the builtin `classmethod` type,
fixed at wrap time — invoked through `sub`, the underlying function receives
`classmethodType`, while the unwrapped classmethod would receive `sub`. -/
theorem C3_wrapped_classmethod_passes_fixed_class :
    (wrap_classmethod_invoke cmId PyClass.sub 3).2 = (PyClass.classmethodType, 3)
      ∧ classmethod_invoke cmId PyClass.sub 3 = (PyClass.sub, 3)
      ∧ PyClass.classmethodType ≠ PyClass.sub := by
  decide

/-- C4: the claim states that the wrapped generator propagates every exception
of the inner generator — including normal exhaustion — unchanged, also when
the inner generator is exhausted on the very first resumption. On the code
this is false: the `next`/`send` calls are not guarded by
`except StopIteration`, so the inner generator's `StopIteration` escapes the
wrapper's generator frame and PEP 479 turns it into `RuntimeError`; for the
immediately-exhausted generator `gEmpty`, the wrapper's consumer observes
`RuntimeError` where the unwrapped generator's consumer observes normal
exhaustion (`StopIteration`). -/
theorem C4_generator_exhaustion_becomes_RuntimeError :
    runWrapped gEmpty [] [] = ([Ev.enable, Ev.disable], [], some PyExc.RuntimeError)
      ∧ runInner gEmpty [] [] = ([], some PyExc.StopIteration) := by
  decide

/-- C5: the claim states that for all four callable shapes the wrapper yields
the same result (or raises the same exception) as the unwrapped callable. On
the code this is false for the classmethod shape: invoked through `base` with
argument `7`, the wrapper's result differs from the unwrapped classmethod's
result, because the wrapper substitutes `func.__class__` for the current
class. -/
theorem C5_wrapper_differs_from_unwrapped :
    (wrap_classmethod_invoke cmId PyClass.base 7).2
      ≠ classmethod_invoke cmId PyClass.base 7 := by
  decide

/-- C6: on every exit path of every wrapper shape — normal return, generator
exhaustion, or exception — the tracer bracket trace is balanced: activation
depth never goes negative and returns to zero before control leaves, so the
bracket is always deactivated before a result or exception propagates and no
bracket is ever left open. -/
theorem C6_every_exit_path_closes_bracket (f g : Nat → Except PyExc Nat)
    (x y : Nat) (cm : ClassMethodObj) (c : PyClass) (a : Nat)
    (ig : InnerGen Nat Nat) (ins : List Nat) :
    bracketBalanced (wrap_function_run f x).1 0 = true
      ∧ bracketBalanced (wrap_coroutine_run g y).1 0 = true
      ∧ bracketBalanced (wrap_classmethod_invoke cm c a).1 0 = true
      ∧ bracketBalanced (runWrapped ig [] ins).1 0 = true := by
  refine ⟨?_, ?_, ?_, runWrapped_balanced ig ins []⟩
  · unfold wrap_function_run withSelf
    cases f x <;> rfl
  · unfold wrap_coroutine_run withSelf
    cases g y <;> rfl
  · rfl

theorem insertByKey_length (x : TargetKey × List Timing)
    (l : List (TargetKey × List Timing)) :
    (insertByKey x l).length = l.length + 1 := by
  induction l with
  | nil => rfl
  | cons y rest ih =>
    unfold insertByKey
    by_cases h : keyLe x.1 y.1 = true
    · simp [h]
    · simp [h, ih]

theorem sortStats_length (l : List (TargetKey × List Timing)) :
    (sortStats l).length = l.length := by
  induction l with
  | nil => rfl
  | cons x rest ih =>
    unfold sortStats at ih ⊢
    simp [List.foldr_cons, insertByKey_length, ih]

theorem sortStats_ne_nil (l : List (TargetKey × List Timing)) (h : l ≠ []) :
    sortStats l ≠ [] := by
  intro hc
  apply h
  have := sortStats_length l
  rw [hc] at this
  exact List.length_eq_zero.mp this.symm

theorem show_text_loop_cons (env : SourceEnv) (unit : Rat)
    (output_unit : Option Rat) (stripzeros : Bool) (x : TargetKey × List Timing)
    (rest : List (TargetKey × List Timing)) :
    show_text_loop env unit output_unit stripzeros (x :: rest)
      = ([], some PyExc.NameError) := by
  obtain ⟨k, ts⟩ := x
  unfold show_text_loop
  rw [if_neg (by decide : ¬(moduleGlobals.contains "show_func" = true))]

/-- The report surface raises `NameError` on every non-empty statistics
mapping: the module-level `show_text` resolves the bare name `show_func`,
which is bound only as a class attribute of `MyLineProfiler`, never at module
scope. Only the timer-unit header reaches the sink. -/
theorem show_text_nonempty_NameError (env : SourceEnv)
    (stats : List (TargetKey × List Timing)) (unit : Rat)
    (output_unit : Option Rat) (stripzeros : Bool) (h : stats ≠ []) :
    show_text env stats unit output_unit stripzeros
      = ([Out.timerUnit (match output_unit with | some u => u | none => unit)],
         some PyExc.NameError) := by
  obtain ⟨x, xs, hx⟩ := List.exists_cons_of_ne_nil (sortStats_ne_nil stats h)
  unfold show_text
  rw [hx, show_text_loop_cons]

/-- C8: the claim states that a target with a missing source file yields
exactly one diagnostic line naming the file while every other target still
gets a full block. On the code this is false: the report loop raises
`NameError` on its first iteration (see C1), so with targets `gone.py`
(missing) and `there.py` (present) neither the diagnostic line nor the block
for `there.py` is ever written. -/
theorem C8_missing_file_diagnostic_and_blocks_lost :
    show_text envThere
        [(⟨"gone.py", 1, "g"⟩, [⟨1, 1, 3⟩]), (⟨"there.py", 1, "h"⟩, [⟨1, 2, 4⟩])]
        1 none false
      = ([Out.timerUnit 1], some PyExc.NameError)
      ∧ Out.missingFile "gone.py"
          ∉ (show_text envThere
              [(⟨"gone.py", 1, "g"⟩, [⟨1, 1, 3⟩]), (⟨"there.py", 1, "h"⟩, [⟨1, 2, 4⟩])]
              1 none false).1 := by
  have h := show_text_nonempty_NameError envThere
    [(⟨"gone.py", 1, "g"⟩, [⟨1, 1, 3⟩]), (⟨"there.py", 1, "h"⟩, [⟨1, 2, 4⟩])]
    1 none false (by simp)
  exact ⟨h, by simp [h]⟩

theorem build_d_scale (k s : Rat) (total : Nat) (ts : List Timing) :
    build_d (k * s) total ts
      = (build_d s total ts).map (List.map (fun p => (p.1, scaleRow k p.2))) := by
  induction ts with
  | nil => rfl
  | cons t rest ih =>
    unfold build_d
    by_cases h : t.nhits = 0
    · simp [h, Except.map]
    · rw [if_neg h, if_neg h, ih]
      cases hb : build_d s total rest with
      | error e => rfl
      | ok xs =>
        simp only [Except.map]
        congr 1
        simp only [List.map_cons]
        congr 1
        simp only [scaleRow]
        congr 1
        congr 1
        · ring
        · ring

theorem find?_map_keyeq (g : Nat × Row → Nat × Row)
    (hg : ∀ p, (g p).1 = p.1) (x : Nat) :
    ∀ l : List (Nat × Row),
      (l.map g).find? (fun p => p.1 == x) = (l.find? (fun p => p.1 == x)).map g := by
  intro l
  induction l with
  | nil => rfl
  | cons a rest ih =>
    simp only [List.map_cons, List.find?]
    rw [hg a]
    cases hax : (a.1 == x) with
    | true => rfl
    | false => simpa using ih

theorem dLookup_map_scale (k : Rat) (entries : List (Nat × Row)) (x : Nat) :
    dLookup (entries.map (fun p => (p.1, scaleRow k p.2))) x
      = (dLookup entries x).map (scaleRow k) := by
  unfold dLookup
  rw [← List.map_reverse, find?_map_keyeq (fun p => (p.1, scaleRow k p.2)) (fun p => rfl) x]
  cases entries.reverse.find? (fun p => p.1 == x) with
  | none => rfl
  | some p => rfl

theorem renderRows_scale (k : Rat) (entries : List (Nat × Row)) (s : Nat)
    (subs : List String) :
    renderRows (entries.map (fun p => (p.1, scaleRow k p.2))) s subs
      = (renderRows entries s subs).map (scaleOut k) := by
  unfold renderRows
  rw [List.map_map]
  congr 1
  funext p
  simp only [Function.comp_apply]
  rw [dLookup_map_scale]
  cases dLookup entries p.1 with
  | none => rfl
  | some r => rfl

/-- C9: setting `output_unit` to one-thousandth of the native unit makes
every write of the per-target block the `scaleOut 1000` image of the
corresponding write of the unscaled rendering — every displayed time value
(the header total, the Time column, the Per Hit column) is multiplied by
exactly 1000, while hit counts, percentage values, source text and the
escaping exception (if any) are unchanged. -/
theorem C9_output_unit_thousandth_scales_by_1000 (env : SourceEnv)
    (filename : String) (start_lineno : Nat) (func_name : String)
    (ts : List Timing) (unit : Rat) (stripzeros : Bool) :
    show_func env filename start_lineno func_name ts unit (some (unit / 1000)) stripzeros
      = ((show_func env filename start_lineno func_name ts unit none stripzeros).1.map
           (scaleOut 1000),
         (show_func env filename start_lineno func_name ts unit none stripzeros).2) := by
  unfold show_func
  cases hpe : env.path_exists filename with
  | false => simp [scaleOut]
  | true =>
    simp only [Bool.true_eq_false, if_false]
    cases hsz : (stripzeros && (sumTimes ts == 0)) with
    | true => simp
    | false =>
      simp only [Bool.false_eq_true, if_false]
      by_cases hu : unit = 0
      · subst hu
        simp [zero_div]
      · have h1000 : unit / 1000 ≠ 0 := div_ne_zero hu (by norm_num)
        simp only [if_neg h1000, if_neg hu]
        have hs1 : unit / (unit / 1000) = 1000 * (unit / unit) := by
          rw [div_div_eq_mul_div, mul_comm unit 1000, mul_div_assoc]
        rw [hs1, build_d_scale]
        cases hb : build_d (unit / unit) (sumTimes ts) ts with
        | error e =>
          simp only [Except.map, scaleOut, List.map_cons, List.map_nil]
          have hr : ((sumTimes ts : Rat)) * (1000 * (unit / unit))
              = 1000 * ((sumTimes ts : Rat) * (unit / unit)) := by ring
          rw [hr]
        | ok entries =>
          simp only [Except.map]
          rw [renderRows_scale]
          simp only [List.map_append, List.map_cons, List.map_nil, scaleOut]
          have hr : ((sumTimes ts : Rat)) * (1000 * (unit / unit))
              = 1000 * ((sumTimes ts : Rat) * (unit / unit)) := by ring
          rw [hr]

theorem show_func_zero_total_strip (env : SourceEnv) (filename : String)
    (start_lineno : Nat) (func_name : String) (ts : List Timing) (unit : Rat)
    (output_unit : Option Rat) (hex : env.path_exists filename = true)
    (h0 : sumTimes ts = 0) :
    show_func env filename start_lineno func_name ts unit output_unit true
      = ([], none) := by
  unfold show_func
  rw [hex]
  simp [h0]

theorem show_func_nonzero_total_ne (env : SourceEnv) (filename : String)
    (start_lineno : Nat) (func_name : String) (ts : List Timing) (unit : Rat)
    (output_unit : Option Rat) (strip : Bool)
    (hex : env.path_exists filename = true) (h0 : sumTimes ts ≠ 0) :
    show_func env filename start_lineno func_name ts unit output_unit strip
      ≠ ([], none) := by
  unfold show_func
  rw [hex]
  have hbeq : (sumTimes ts == 0) = false := by simpa using h0
  simp only [hbeq, Bool.and_false, Bool.false_eq_true, if_false, Bool.true_eq_false]
  split
  · simp
  · split
    · simp
    · simp

/-- C7: when `stripzeros` is set and the target's source file exists, the
rendering writes nothing and raises nothing exactly when the target's total
elapsed ticks (the sum over its timings) is zero; every target with a nonzero
total produces output (or, degenerately, a raised error), so no nonzero block
is ever silently omitted. -/
theorem C7_stripzeros_omits_exactly_zero_total (env : SourceEnv)
    (filename : String) (start_lineno : Nat) (func_name : String)
    (ts : List Timing) (unit : Rat) (output_unit : Option Rat)
    (hex : env.path_exists filename = true) :
    (show_func env filename start_lineno func_name ts unit output_unit true
        = ([], none))
      ↔ sumTimes ts = 0 := by
  constructor
  · intro h
    by_contra h0
    exact show_func_nonzero_total_ne env filename start_lineno func_name ts unit
      output_unit true hex h0 h
  · intro h0
    exact show_func_zero_total_strip env filename start_lineno func_name ts unit
      output_unit hex h0

/-- Witness for C7 at a concrete input: an existing file and a single timing
with nonzero total. -/
theorem C7_stripzeros_witness :
    envAll.path_exists "a.py" = true
      ∧ ((show_func envAll "a.py" 1 "f" [⟨1, 1, 5⟩] 1 none true = ([], none))
           ↔ sumTimes [⟨1, 1, 5⟩] = 0) :=
  ⟨rfl, C7_stripzeros_omits_exactly_zero_total envAll "a.py" 1 "f" [⟨1, 1, 5⟩] 1 none rfl⟩

/-- C10: the missing-source-file check of `show_func` runs before the
`stripzeros` check, so a target whose file cannot be located produces the
missing-file diagnostic even when `stripzeros` is set and the target's total
elapsed time is zero — the block is not silently omitted. -/
theorem C10_missing_file_diag_despite_stripzeros (env : SourceEnv)
    (filename : String) (start_lineno : Nat) (func_name : String)
    (ts : List Timing) (unit : Rat) (output_unit : Option Rat)
    (hmiss : env.path_exists filename = false)
    (_htot : sumTimes ts = 0) :
    show_func env filename start_lineno func_name ts unit output_unit true
      = ([Out.missingFile filename], none) := by
  unfold show_func
  rw [hmiss]
  simp

/-- Witness for C10 at a concrete input: a missing file, `stripzeros` set,
and a timing list with total elapsed zero. -/
theorem C10_missing_file_witness :
    envNone.path_exists "gone.py" = false ∧ sumTimes [⟨1, 1, 0⟩] = 0
      ∧ show_func envNone "gone.py" 1 "f" [⟨1, 1, 0⟩] 1 none true
          = ([Out.missingFile "gone.py"], none) :=
  ⟨rfl, rfl, C10_missing_file_diag_despite_stripzeros envNone "gone.py" 1 "f"
    [⟨1, 1, 0⟩] 1 none rfl rfl⟩
